import Mathlib

/-!
Shallow embedding of the envsensor-demo repository (Rust) and verification of
its specification claims.

The embedding covers:
* the CRC-16/MODBUS checksum used by the Rydason codec (crate constant
  CRC_16_MODBUS in src/rydason.rs);
* the Rydason register-query codec: request encoding (QueryReq with its
  computed crc field) and response decoding (QueryRsp with its Value payload);
* the TB600B-C codec: the auto-report frame (AutoReport) and the divisor
  derived from the parameter frame scale byte;
* the driver layer of tb600b_c.rs and nextpm.rs: channel metadata and
  read_data;
* the session layer of sensor.rs: Sensor::new, Sensor::start, and the
  start_log CSV consumer.

Machine integers are modelled as Nat; an explicit percent-256 or a bound
hypothesis appears exactly where the Rust code has a u8/u16 cast or type.
Fallible decoding returns Option. Thread effects of Sensor::start are made
explicit as a returned effect record.
-/

namespace EnvSensor

/-! ## CRC-16/MODBUS  (crc crate algorithm used by src/rydason.rs)

The crc crate computes CRC_16_MODBUS with the reflected algorithm:
width 16, polynomial 0x8005 (reflected 0xA001), init 0xFFFF,
refin and refout true, xorout 0x0000, check value 0x4B37. -/

/-- One bit step of the reflected CRC-16/MODBUS loop: shift right one bit and
conditionally xor the reflected polynomial 0xA001. -/
def crcBitStep (c : Nat) : Nat :=
  if c % 2 = 1 then (c / 2) ^^^ 0xA001 else c / 2

/-- Absorb one input byte into the running CRC: xor the byte into the low
eight bits, then run eight bit steps. -/
def crcByteStep (c b : Nat) : Nat :=
  crcBitStep^[8] (c ^^^ (b % 256))

/-- Checksum of a byte sequence, as CRC_16_MODBUS.checksum in src/rydason.rs:
fold the byte step over the input starting from 0xFFFF. -/
def crc16_checksum (bs : List Nat) : Nat :=
  bs.foldl crcByteStep 0xFFFF

/-! ## Byte serialisation helpers (binrw big and little endian 16-bit) -/

/-- Big-endian bytes of a 16-bit word, as binrw writes a u16 under brw(big). -/
def be16 (v : Nat) : List Nat := [v / 256 % 256, v % 256]

/-- Little-endian bytes of a 16-bit word, as binrw writes a u16 under
brw(little). -/
def le16 (v : Nat) : List Nat := [v % 256, v / 256 % 256]

/-! ## Rydason request codec (struct QueryReq, src/rydason.rs) -/

/-- Fields of the QueryReq struct of src/rydason.rs. addr and func are u8,
reg and value are u16; the crc field is computed, not stored. -/
structure QueryReq where
  addr : Nat
  func : Nat
  reg : Nat
  value : Nat
  deriving DecidableEq, Repr

/-- Byte list the source feeds to CRC_16_MODBUS.checksum in the bw(calc = ...)
attribute of QueryReq: the fields re-serialised by hand with shifts and
masks. The percent-256 mirrors the `as u8` casts. -/
def QueryReq.crcInput (r : QueryReq) : List Nat :=
  [r.addr, r.func,
   (r.reg >>> 8) % 256, r.reg &&& 0xFF,
   (r.value >>> 8) % 256, r.value &&& 0xFF]

/-- Wire encoding of a QueryReq: binrw writes addr, func, reg, value
big-endian, then the computed crc field little-endian. -/
def QueryReq.encode (r : QueryReq) : List Nat :=
  [r.addr, r.func] ++ be16 r.reg ++ be16 r.value
    ++ le16 (crc16_checksum r.crcInput)

/-- Header bytes of a QueryReq frame: every byte of the frame that precedes
the trailing CRC word. -/
def QueryReq.header (r : QueryReq) : List Nat :=
  [r.addr, r.func] ++ be16 r.reg ++ be16 r.value

/-! ## Rydason response codec (enum Value and struct QueryRsp) -/

/-- Payload of a QueryRsp, enum Value of src/rydason.rs: a 16-bit or a 32-bit
big-endian integer selected by the length byte. -/
inductive Value where
  | U16 (v : Nat)
  | U32 (v : Nat)
  deriving DecidableEq, Repr

/-- Fields of the QueryRsp struct of src/rydason.rs. -/
structure QueryRsp where
  addr : Nat
  func : Nat
  len : Nat
  value : Value
  checksum : Nat
  deriving DecidableEq, Repr

/-- Decoder for QueryRsp, following BinRead derived on the struct: one byte
each for addr, func and len; then the Value payload whose variant is chosen
by the pre_assert on len (2 selects U16, 4 selects U32, anything else is a
decode error); then the checksum word read little-endian. Trailing bytes
beyond the struct are ignored, exactly as binrw reading from a Cursor.
Note the decoder stores the checksum word; it never compares it with a
computed CRC. -/
def QueryRsp.read (bs : List Nat) : Option QueryRsp :=
  match bs with
  | a :: f :: l :: rest =>
    if l = 2 then
      match rest with
      | v1 :: v0 :: c0 :: c1 :: _ =>
          some ⟨a, f, l, Value.U16 (v1 * 256 + v0), c0 + 256 * c1⟩
      | _ => none
    else if l = 4 then
      match rest with
      | v3 :: v2 :: v1 :: v0 :: c0 :: c1 :: _ =>
          some ⟨a, f, l, Value.U32 (((v3 * 256 + v2) * 256 + v1) * 256 + v0),
                c0 + 256 * c1⟩
      | _ => none
    else none
  | _ => none

/-! ## Rydason scale and measured value (read_scale, read_measured_value) -/

/-- Divisor derived by read_scale in src/rydason.rs: ten to the power of the
value of the scale register. -/
def rydasonDivisor (v : Nat) : Nat := 10 ^ v

/-- Physical value computed by read_measured_value in src/rydason.rs: the raw
32-bit register value divided by the stored scale. The source divides two
f32 values; both arguments of the claims are exactly representable, so the
rational quotient is the faithful value. -/
def read_measured_value (raw scale : Nat) : ℚ :=
  (raw : ℚ) / (scale : ℚ)

/-! ## TB600B-C codec (src/tb600b_c.rs) -/

/-- Fields of the AutoReport frame of src/tb600b_c.rs: after the 2-byte magic
FF 86, two big-endian 16-bit concentrations around a big-endian 16-bit
range, then a checksum byte. -/
structure AutoReport where
  concentration2 : Nat
  range : Nat
  concentration1 : Nat
  checksum : Nat
  deriving DecidableEq, Repr

/-- Decoder for AutoReport, following BinRead with brw(big, magic = FF 86):
the two magic bytes are compared and any mismatch is a decode error, then
the three big-endian words and the checksum byte are read. -/
def AutoReport.read (bs : List Nat) : Option AutoReport :=
  match bs with
  | m0 :: m1 :: a1 :: a0 :: r1 :: r0 :: b1 :: b0 :: ck :: _ =>
    if m0 = 0xFF then
      if m1 = 0x86 then
        some ⟨a1 * 256 + a0, r1 * 256 + r0, b1 * 256 + b0, ck⟩
      else none
    else none
  | _ => none

/-- Divisor derived in TB600BC::new from the parameter frame scale byte:
ten to the power of the high nibble. -/
def tb600bcDivisor (scale : Nat) : Nat := 10 ^ (scale >>> 4)

/-- Physical concentration computed by read_auto_report_data: the raw
big-endian word divided by the stored scale (source divides two f32
values; the claims use exactly representable arguments). -/
def tb600bcConcentration (raw scale : Nat) : ℚ :=
  (raw : ℚ) / (scale : ℚ)

/-- Largest value of the Rust u32 type. -/
def u32Max : Nat := 4294967295

/-! ## Sensor data model (src/sensor.rs and the driver-layer revision) -/

/-- SensorType enumeration. CO and NO2 are declared in src/sensor.rs; the
particulate variants PM1, PM2_5 and PM10 are referenced by src/nextpm.rs
(the sensor-module revision declaring them is missing from the snapshot)
and follow the particulate size classes of the spec. -/
inductive SensorType where
  | CO
  | NO2
  | PM1
  | PM2_5
  | PM10
  deriving DecidableEq, Repr

/-- Modelled from the spec: the closed unit enumeration (ppm, ppb, mg/m3,
ug/m3, percent-vol, 10 g/m3) that src/tb600b_c.rs and src/nextpm.rs
reference as crate::sensor::Unit; its declaration is missing from the
snapshot, the variant names are those used at the reference sites. -/
inductive Unit where
  | PPM
  | PPB
  | MgPerM3
  | UgPerM3
  | PercentVol
  | TenGPerM3
  deriving DecidableEq, Repr

/-- SensorChannel of the driver layer: one measured quantity with its unit,
built via SensorChannel::new in the driver constructors. -/
structure SensorChannel where
  sensor_type : SensorType
  unit : Unit
  deriving DecidableEq, Repr

/-- SensorData of the driver layer: one reading with its type and unit. The
f32 value is modelled as a rational. -/
structure SensorData where
  ty : SensorType
  value : ℚ
  unit : Unit
  deriving DecidableEq, Repr

/-- ECUnit selector of src/tb600b_c.rs: the three admissible values of the
unit-selector byte of the parameter frame. -/
inductive ECUnit where
  | PpmMg
  | Ppbug
  | Vol10g
  deriving DecidableEq, Repr

/-- Unit pair selected in TB600BC::new from the ECUnit selector byte. -/
def ecUnitPair : ECUnit → Unit × Unit
  | ECUnit.PpmMg => (Unit.PPM, Unit.MgPerM3)
  | ECUnit.Ppbug => (Unit.PPB, Unit.UgPerM3)
  | ECUnit.Vol10g => (Unit.PercentVol, Unit.TenGPerM3)

/-- Channel metadata built in TB600BC::new and returned unchanged by
get_metadata: two channels of the same gas type carrying the two units of
the selected pair. The channels field is set once in new and never
mutated afterwards. -/
def tb600bcChannels (ty : SensorType) (u : ECUnit) : List SensorChannel :=
  [⟨ty, (ecUnitPair u).1⟩, ⟨ty, (ecUnitPair u).2⟩]

/-- Readings built by TB600BC::read_data from the two decoded concentrations:
channels[0] and channels[1] supply the type and the unit of the two
readings (indexing a shorter list is a panic, modelled as none). -/
def tb600bcReadData (channels : List SensorChannel) (c1 c2 : ℚ) :
    Option (List SensorData) :=
  match channels with
  | ch0 :: ch1 :: _ =>
      some [⟨ch0.sensor_type, c1, ch0.unit⟩, ⟨ch1.sensor_type, c2, ch1.unit⟩]
  | _ => none

/-- Channel metadata built in NextPM::new: the three particulate size classes,
all in micrograms per cubic metre. -/
def nextpmChannels : List SensorChannel :=
  [⟨SensorType.PM1, Unit.UgPerM3⟩, ⟨SensorType.PM2_5, Unit.UgPerM3⟩,
   ⟨SensorType.PM10, Unit.UgPerM3⟩]

/-- Readings built by NextPM::read_data from the three decoded values:
channels[0], channels[1] and channels[2] supply the type and the unit of
the three readings (indexing a shorter list is a panic, modelled none). -/
def nextpmReadData (channels : List SensorChannel) (pm1 pm2_5 pm10 : ℚ) :
    Option (List SensorData) :=
  match channels with
  | ch0 :: ch1 :: ch2 :: _ =>
      some [⟨ch0.sensor_type, pm1, ch0.unit⟩, ⟨ch1.sensor_type, pm2_5, ch1.unit⟩,
            ⟨ch2.sensor_type, pm10, ch2.unit⟩]
  | _ => none

/-! ## Session layer (src/sensor.rs) -/

/-- SensorModel catalog. EC_TB600BC and RYDASON are declared in
src/sensor.rs; TERA_NextPM is referenced by src/nextpm.rs (the revision of
the sensor module declaring it is missing from the snapshot). -/
inductive SensorModel where
  | EC_TB600BC
  | RYDASON
  | TERA_NextPM
  deriving DecidableEq, Repr

/-- Session handle of src/sensor.rs: hardware model, port string, the shared
cancellation flag, and this handle's bus subscription (modelled by an
identifier). -/
structure Sensor where
  hw : SensorModel
  port : String
  flag : Bool
  rx : Nat
  deriving DecidableEq, Repr

/-- Constructor Sensor::new of src/sensor.rs: stores the model, the port
string, a fresh cancellation flag initialised to false and the given
receiver, and returns Ok unconditionally; no device access or validation
happens here. -/
def Sensor.new (model : SensorModel) (port : String) (rx : Nat) :
    Except String Sensor :=
  Except.ok { hw := model, port := port, flag := false, rx := rx }

/-- Observable effect of one call to Sensor::start: the handle state after
the call, the number of live acquisition sessions after the call, and the
returned Result. -/
structure StartEffect where
  handle : Sensor
  sessionsAfter : Nat
  result : Except String PUnit
  deriving Repr

/-- Sensor::start of src/sensor.rs: the body stores false into the
cancellation flag, spawns one acquisition thread for the configured model,
and returns Ok(()). The activeSessions argument is the caller-side count of
sessions already live for this handle; the body never consults it, so a
call made while a session is active simply adds a second one. -/
def Sensor.start (s : Sensor) (activeSessions : Nat) : StartEffect :=
  { handle := { s with flag := false },
    sessionsAfter := activeSessions + 1,
    result := Except.ok PUnit.unit }

/-! ## Constructor open-failure policy (C8) -/

/-- Outcome of a constructor body as observed by its caller and the process:
a constructed value, an error returned to the caller, or termination of
the whole process with an exit code. -/
inductive CtorOutcome (α : Type) where
  | ok (a : α)
  | err (e : String)
  | exit (code : Nat)
  deriving DecidableEq, Repr

/-- Open-failure handling of TB600BC::new in src/tb600b_c.rs: unwrap_or_else
on the serial open result prints the error and calls std::process::exit(1);
an opened port flows on into the rest of the constructor. -/
def tb600bcHandleOpen (r : Except String Nat) : CtorOutcome Nat :=
  match r with
  | Except.ok p => CtorOutcome.ok p
  | Except.error _ => CtorOutcome.exit 1

/-- Open-failure handling of NextPM::new in src/nextpm.rs: identical
unwrap_or_else pattern terminating the process with exit code 1. -/
def nextpmHandleOpen (r : Except String Nat) : CtorOutcome Nat :=
  match r with
  | Except.ok p => CtorOutcome.ok p
  | Except.error _ => CtorOutcome.exit 1

/-- Open-failure handling of Rydason::new in src/rydason.rs: inspect_err
prints the error and the question-mark operator returns it to the caller
as Err. -/
def rydasonHandleOpen (r : Except String Nat) : CtorOutcome Nat :=
  match r with
  | Except.ok p => CtorOutcome.ok p
  | Except.error e => CtorOutcome.err e

/-! ## Logging consumer (start_log, src/sensor.rs) -/

/-- Sample payload as consumed by the row writer of start_log: the formatted
timestamp (chrono formatting is external, modelled as the already
formatted string) and the reading values in channel order; the row writer
reads only the value field of each reading. -/
structure LogSample where
  timestamp : String
  values : List ℚ
  deriving DecidableEq, Repr

/-- Bus message of src/sensor.rs: a human-readable status string or one
sample. -/
inductive AppMsg where
  | Status (msg : String)
  | Sample (sample : LogSample)
  deriving DecidableEq, Repr

/-- CSV header computed by start_log: the literal Timestamp column followed
by one Type(Unit) column per channel, zipping the type and unit lists. -/
def csvHead (sensor_type sensor_unit : List String) : String :=
  "Timestamp," ++
    String.intercalate ","
      ((sensor_type.zip sensor_unit).map (fun p => p.1 ++ "(" ++ p.2 ++ ")"))

/-- CSV row written for one sample: the formatted timestamp then each value
in channel order, comma separated. -/
def sampleRow (s : LogSample) : String :=
  s.timestamp ++ "," ++ String.intercalate "," (s.values.map (fun v => toString v))

/-- File events the logging thread can perform on its CSV sink. -/
inductive LogEvent where
  | write (line : String)
  | flush
  deriving DecidableEq, Repr

/-- Body of one iteration of the start_log receive loop: a Sample message
writes one row and then flushes the file; any other receive outcome
writes nothing. -/
def logStep (m : AppMsg) : List LogEvent :=
  match m with
  | AppMsg.Sample s => [LogEvent.write (sampleRow s), LogEvent.flush]
  | AppMsg.Status _ => []

/-- Receive loop of start_log, over the list of messages received before the
cancellation flag is observed true. -/
def logLoop : List AppMsg → List LogEvent
  | [] => []
  | m :: rest => logStep m ++ logLoop rest

/-- File events of the whole logging thread: write the header line, then run
the receive loop. -/
def start_log (sensor_type sensor_unit : List String) (msgs : List AppMsg) :
    List LogEvent :=
  LogEvent.write (csvHead sensor_type sensor_unit) :: logLoop msgs

/-! ## Theorems -/

/-- Helper: the byte list the bw(calc) attribute feeds to the CRC equals the
serialised header bytes of the frame, for all field values. -/
theorem crcInput_eq_header (r : QueryReq) : r.crcInput = r.header := by
  have h1 : r.reg &&& 0xFF = r.reg % 256 := Nat.and_pow_two_sub_one_eq_mod r.reg 8
  have h2 : r.value &&& 0xFF = r.value % 256 := Nat.and_pow_two_sub_one_eq_mod r.value 8
  have h3 : r.reg >>> 8 = r.reg / 256 := Nat.shiftRight_eq_div_pow r.reg 8
  have h4 : r.value >>> 8 = r.value / 256 := Nat.shiftRight_eq_div_pow r.value 8
  simp [QueryReq.crcInput, QueryReq.header, be16, h1, h2, h3, h4]

set_option maxRecDepth 100000 in
/-- C5: encoding a Rydason register-query request produces the big-endian
header bytes followed by a little-endian CRC-16/MODBUS word computed over
exactly those preceding bytes; for addr=1, func=0x03, reg=0x0101,
value=0x0001 the checksum is 0x36D4 and the frame is
01 03 01 01 00 01 D4 36. -/
theorem C5_query_request_crc :
    (∀ r : QueryReq, r.encode = r.header ++ le16 (crc16_checksum r.header)) ∧
    crc16_checksum [0x01, 0x03, 0x01, 0x01, 0x00, 0x01] = 0x36D4 ∧
    QueryReq.encode ⟨1, 0x03, 0x0101, 0x0001⟩ =
      [0x01, 0x03, 0x01, 0x01, 0x00, 0x01, 0xD4, 0x36] := by
  refine ⟨?_, by decide, by decide⟩
  intro r
  rw [QueryReq.encode, crcInput_eq_header, QueryReq.header]

set_option maxRecDepth 100000 in
/-- C1 counterexample: the 7-byte response frame 01 03 02 00 01 00 00 carries
the trailing CRC word 0x0000, but the CRC-16/MODBUS over its preceding five
bytes is 0x8479; decoding nevertheless succeeds, so a CRC mismatch is not a
decode failure. -/
theorem C1_crc_mismatch_accepted :
    QueryRsp.read [1, 3, 2, 0, 1, 0, 0] = some ⟨1, 3, 2, Value.U16 1, 0⟩ ∧
    crc16_checksum [1, 3, 2, 0, 1] = 0x8479 ∧ (0 : Nat) ≠ 0x8479 :=
  ⟨by decide, by decide, by decide⟩

/-- C1 amended: decoding a QueryRsp parses the trailing little-endian checksum
word but never compares it with a CRC computed over the preceding bytes:
every structurally well-formed frame decodes successfully with whatever
checksum word it carries, in both the 16-bit and the 32-bit payload shape. -/
theorem C1_checksum_never_validated (a f v1 v0 c0 c1 : Nat) :
    QueryRsp.read [a, f, 2, v1, v0, c0, c1] =
      some ⟨a, f, 2, Value.U16 (v1 * 256 + v0), c0 + 256 * c1⟩ ∧
    ∀ w3 w2 w1 w0 : Nat,
      QueryRsp.read [a, f, 4, w3, w2, w1, w0, c0, c1] =
        some ⟨a, f, 4, Value.U32 (((w3 * 256 + w2) * 256 + w1) * 256 + w0),
              c0 + 256 * c1⟩ :=
  ⟨rfl, fun _ _ _ _ => rfl⟩

/-- C6: decoding the push-style frame FF 86 25 BC 03 E8 20 D0 BE yields
concentration2 = 0x25BC, range = 0x03E8, concentration1 = 0x20D0; and in
general the three fields after the magic prefix FF 86 are parsed as
big-endian 16-bit integers. -/
theorem C6_auto_report_decode :
    AutoReport.read [0xFF, 0x86, 0x25, 0xBC, 0x03, 0xE8, 0x20, 0xD0, 0xBE] =
      some ⟨0x25BC, 0x03E8, 0x20D0, 0xBE⟩ ∧
    ∀ (a1 a0 r1 r0 b1 b0 ck : Nat) (tail : List Nat),
      AutoReport.read (0xFF :: 0x86 :: a1 :: a0 :: r1 :: r0 :: b1 :: b0 :: ck :: tail) =
        some ⟨a1 * 256 + a0, r1 * 256 + r0, b1 * 256 + b0, ck⟩ :=
  ⟨rfl, fun _ _ _ _ _ _ _ _ => rfl⟩

/-- C4: the divisor is 10 to the power of the exponent carried in the scale
field: a TB600B-C scale byte with high nibble 3 gives divisor 1000, a
Rydason scale register value 3 gives divisor 1000, and the raw register
value 4500 with divisor 1000 decodes to the physical value 4.5. -/
theorem C4_scale_divisor (s : Nat) (_hs : s < 256) (h3 : s >>> 4 = 3) :
    tb600bcDivisor s = 1000 ∧ rydasonDivisor 3 = 1000 ∧
    read_measured_value 4500 1000 = 4.5 := by
  refine ⟨?_, by norm_num [rydasonDivisor], by norm_num [read_measured_value]⟩
  rw [tb600bcDivisor, h3]
  norm_num

/-- Witness for C4 at the concrete scale byte 0x30, whose high nibble is 3. -/
theorem C4_scale_divisor_witness :
    tb600bcDivisor 0x30 = 1000 ∧ rydasonDivisor 3 = 1000 ∧
    read_measured_value 4500 1000 = 4.5 :=
  C4_scale_divisor 0x30 (by decide) (by decide)

/-- Helper: ten to a power fits in a u32 exactly when the exponent is at
most nine. -/
theorem pow10_le_u32Max (e : Nat) : 10 ^ e ≤ u32Max ↔ e ≤ 9 := by
  constructor
  · intro h
    by_contra hgt
    push_neg at hgt
    have h10 : 10 ^ 10 ≤ 10 ^ e := Nat.pow_le_pow_right (by norm_num) hgt
    have := le_trans h10 h
    norm_num [u32Max] at this
  · intro h
    calc 10 ^ e ≤ 10 ^ 9 := Nat.pow_le_pow_right (by norm_num) h
    _ ≤ u32Max := by norm_num [u32Max]

/-- C9: the divisor 10 to the exponent fits in a u32 exactly when the
exponent is at most 9, for both the TB600B-C high-nibble exponent and the
Rydason scale register; scale bytes whose high nibble is 10 or more are
representable (for example 0xA0). -/
theorem C9_divisor_overflow :
    (∀ s : Nat, s < 256 → (tb600bcDivisor s ≤ u32Max ↔ s >>> 4 ≤ 9)) ∧
    (∀ v : Nat, rydasonDivisor v ≤ u32Max ↔ v ≤ 9) ∧
    (∃ s : Nat, s < 256 ∧ 10 ≤ s >>> 4) :=
  ⟨fun s _ => pow10_le_u32Max (s >>> 4), fun v => pow10_le_u32Max v,
    ⟨0xA0, by decide, by decide⟩⟩

/-- Witness for C9 at the concrete scale byte 0xA0 (high nibble 10) and the
concrete Rydason scale register value 10. -/
theorem C9_divisor_overflow_witness :
    (tb600bcDivisor 0xA0 ≤ u32Max ↔ (0xA0 : Nat) >>> 4 ≤ 9) ∧
    (rydasonDivisor 10 ≤ u32Max ↔ (10 : Nat) ≤ 9) :=
  ⟨C9_divisor_overflow.1 0xA0 (by decide), C9_divisor_overflow.2.1 10⟩

/-- C3: for both drivers implementing SensorDriver (TB600BC and NextPM), and
for every construction outcome and every pair or triple of decoded values,
read_data succeeds with exactly as many readings as there are channel
descriptors, and the i-th reading carries the i-th descriptor's type and
unit; the values quantified here are arbitrary, so this holds identically
for every sample of a session. -/
theorem C3_readings_match_metadata :
    (∀ (ty : SensorType) (u : ECUnit) (c1 c2 : ℚ),
      ∃ rs, tb600bcReadData (tb600bcChannels ty u) c1 c2 = some rs ∧
        rs.length = (tb600bcChannels ty u).length ∧
        rs.map (fun d => (d.ty, d.unit)) =
          (tb600bcChannels ty u).map (fun c => (c.sensor_type, c.unit))) ∧
    (∀ pm1 pm2_5 pm10 : ℚ,
      ∃ rs, nextpmReadData nextpmChannels pm1 pm2_5 pm10 = some rs ∧
        rs.length = nextpmChannels.length ∧
        rs.map (fun d => (d.ty, d.unit)) =
          nextpmChannels.map (fun c => (c.sensor_type, c.unit))) :=
  ⟨fun _ _ _ _ => ⟨_, rfl, rfl, rfl⟩, fun _ _ _ => ⟨_, rfl, rfl, rfl⟩⟩

/-- C10: Sensor::new is infallible at the public interface: for every model,
every port string and every bus receiver it returns Ok with a handle whose
cancellation flag is initialised to false and whose remaining fields are
the stored arguments. -/
theorem C10_new_infallible (model : SensorModel) (port : String) (rx : Nat) :
    Sensor.new model port rx =
      Except.ok { hw := model, port := port, flag := false, rx := rx } :=
  rfl

/-- C2 counterexample: calling start on a concrete handle while one session is
already active (activeSessions = 1) still returns Ok and leaves two live
sessions, so start is not rejected while a session is active. -/
theorem C2_start_counterexample :
    (Sensor.start ⟨SensorModel.EC_TB600BC, "COM3", false, 0⟩ 1).result =
      Except.ok PUnit.unit ∧
    (Sensor.start ⟨SensorModel.EC_TB600BC, "COM3", false, 0⟩ 1).sessionsAfter = 2 :=
  ⟨rfl, rfl⟩

/-- C2 amended: Sensor::start performs no active-session check: for every
handle and every number of already-active sessions it resets the
cancellation flag to false, spawns one more acquisition thread, and
returns Ok. -/
theorem C2_start_unconditional (s : Sensor) (n : Nat) :
    (s.start n).result = Except.ok PUnit.unit ∧
    (s.start n).sessionsAfter = n + 1 ∧
    (s.start n).handle = { s with flag := false } :=
  ⟨rfl, rfl, rfl⟩

/-- C8: on a serial-port open failure, TB600BC::new and NextPM::new terminate
the whole process with exit code 1 instead of returning an error value,
while Rydason::new returns the open error to its caller as Err — and in
particular never exits the process. -/
theorem C8_open_failure_policy :
    (∀ e : String, tb600bcHandleOpen (Except.error e) = CtorOutcome.exit 1) ∧
    (∀ e : String, nextpmHandleOpen (Except.error e) = CtorOutcome.exit 1) ∧
    (∀ e : String, rydasonHandleOpen (Except.error e) = CtorOutcome.err e) ∧
    (∀ e : String, rydasonHandleOpen (Except.error e) ≠ CtorOutcome.exit 1) :=
  ⟨fun _ => rfl, fun _ => rfl, fun _ => rfl,
    fun e => by simp [rydasonHandleOpen]⟩

/-- C7: the logging consumer writes one header line derived from the channel
metadata and then, for each Sample message it receives and nothing else,
appends exactly one row followed by a flush, in arrival order; Status
messages produce no output. Concretely, a two-channel CO sensor in ppm and
mg/m3 yields the header Timestamp,CO(ppm),CO(mg/m3). -/
theorem C7_logging_behavior (sensor_type sensor_unit : List String)
    (msgs : List AppMsg) :
    start_log sensor_type sensor_unit msgs =
      LogEvent.write (csvHead sensor_type sensor_unit) ::
        (msgs.filterMap (fun m => match m with
          | AppMsg.Sample s => some s
          | AppMsg.Status _ => none)).flatMap
          (fun s => [LogEvent.write (sampleRow s), LogEvent.flush]) ∧
    csvHead ["CO", "CO"] ["ppm", "mg/m3"] = "Timestamp,CO(ppm),CO(mg/m3)" := by
  constructor
  · rw [start_log]
    congr 1
    induction msgs with
    | nil => rfl
    | cons m rest ih =>
        cases m with
        | Status s => simpa [logLoop, logStep] using ih
        | Sample s => simp [logLoop, logStep, ih]
  · rfl

end EnvSensor
